import Mathlib

/-!
Shallow embedding of the BeScreenCapture session controller
(src/FramesList.h: class Controller of Controller.cpp).

The controller orchestrates a capture thread, an on-disk frame list
(FramesList) and an encoder thread.  Machine state is modelled as a record
of the C++ member fields the verified claims depend on; thread handles are
Int (thread_id, -1 when none), the FramesList pointer is an
Option (List BitmapEntry) (none = NULL), and the BStopWatch pointer is an
Option Int holding the elapsed time in microseconds.

External effects (spawn_thread results, FramesList constructor success,
ReadBitmap results, AddItem results, mkstemp results) are supplied as
explicit environment values, since they come from the OS.  Notifications
sent through SendNotices are collected in an output list.
-/

namespace BSC

/-- Haiku status_t B_OK. -/
def B_OK : Int := 0

/-- Haiku status_t B_ERROR. -/
def B_ERROR : Int := -1

/-- Haiku status_t B_NO_MEMORY (B_GENERAL_ERROR_BASE, the smallest int32). -/
def B_NO_MEMORY : Int := -2147483648

/-- One frame held by FramesList: a bitmap spooled to disk plus its capture
timestamp (system_time at capture).  The pixel data itself is opaque to the
controller logic, so only the timestamp is carried. -/
structure BitmapEntry where
  frameTime : Int
deriving DecidableEq

/-- Entry of the codec list (media_codec_info); only the pretty_name is
inspected by the controller. -/
structure MediaCodecInfo where
  pretty_name : String
deriving DecidableEq

/-- Notifications sent with SendNotices, with the payload fields the
controller attaches.  captureStopped carries an optional status int32
(kMsgControllerCaptureStopped is sometimes sent without a message). -/
inductive Notice where
  | captureStarted
  | captureStopped (status : Option Int)
  | capturePaused
  | captureResumed
  | encodeStarted (framesTotal : Int)
  | encodeFinished (status : Int) (fileName : Option String)
  | codecChanged (name : String)
deriving DecidableEq

/-- The Controller member fields relevant to the session state machine,
as initialised and mutated by Controller.cpp. -/
structure Controller where
  fCaptureThread : Int
  fNumFrames : Int
  fRecordWatch : Option Int
  fKillCaptureThread : Bool
  fPaused : Bool
  fEncoderThread : Int
  fFileList : Option (List BitmapEntry)
  fCodecList : List MediaCodecInfo
  fStopRunner : Option (Int × Int)
  fRequestedRecordTime : Int
  fEncoderCodecInfo : Option MediaCodecInfo
  fSettingsOutputCodec : String
  fEncoderOutputFile : String
  fEncoderSource : Option (List BitmapEntry)
deriving DecidableEq

/-- The three values of the session state (STATE_IDLE, STATE_RECORDING,
STATE_ENCODING). -/
inductive SessionState where
  | idle
  | recording
  | encoding
deriving DecidableEq

/-- The member-field initialisation performed by the Controller
constructor: fCaptureThread(-1), fNumFrames(0), fRecordWatch(NULL),
fKillCaptureThread(true), fPaused(false), fEncoderThread(-1),
fFileList(NULL), fStopRunner(NULL), fRequestedRecordTime(0). -/
def initController : Controller :=
  { fCaptureThread := -1
    fNumFrames := 0
    fRecordWatch := none
    fKillCaptureThread := true
    fPaused := false
    fEncoderThread := -1
    fFileList := none
    fCodecList := []
    fStopRunner := none
    fRequestedRecordTime := 0
    fEncoderCodecInfo := none
    fSettingsOutputCodec := ""
    fEncoderOutputFile := ""
    fEncoderSource := none }

/-- Controller::State(): recording when fCaptureThread is positive, else
encoding when fEncoderThread is positive or fFileList is non-NULL, else
idle. -/
def Controller.State (c : Controller) : SessionState :=
  if 0 < c.fCaptureThread then SessionState.recording
  else if 0 < c.fEncoderThread ∨ c.fFileList ≠ none then SessionState.encoding
  else SessionState.idle

/-- Controller::RecordedFrames(): atomic read of fNumFrames. -/
def Controller.RecordedFrames (c : Controller) : Int :=
  c.fNumFrames

/-- Controller::RecordTime(): elapsed time of the stopwatch, or 0 when the
stopwatch does not exist. -/
def Controller.RecordTime (c : Controller) : Int :=
  match c.fRecordWatch with
  | some t => t
  | none => 0

/-- Reduction of an unbounded integer to the signed 32-bit value with the
same low 32 bits (the arithmetic the int32 expressions of the C++ code
perform). -/
def toInt32 (x : Int) : Int :=
  (x + 2147483648) % 4294967296 - 2147483648

/-- Controller::AverageFPS(): 0 when RecordTime() is 0, otherwise
(RecordedFrames() * 1000000) / RecordTime(), where the multiplication is
performed in int32 arithmetic and the division is the C++ truncating
division. -/
def Controller.AverageFPS (c : Controller) : Int :=
  if c.RecordTime = 0 then 0
  else Int.tdiv (toInt32 (c.RecordedFrames * 1000000)) c.RecordTime

/-- Controller::SetRecordingTime(msecs): bails out when recording already
started (fCaptureThread positive), otherwise stores the requested time. -/
def Controller.SetRecordingTime (c : Controller) (msecs : Int) : Controller :=
  if 0 < c.fCaptureThread then c
  else { c with fRequestedRecordTime := msecs }

/-- Loop body of Controller::SetMediaCodec(codecName): walk fCodecList and,
at the first entry whose pretty_name compares equal (strcmp == 0), set the
encoder codec info, persist the codec name in the settings, send
kMsgControllerCodecChanged, and break. -/
def setMediaCodecWalk (c : Controller) (codecs : List MediaCodecInfo)
    (codecName : String) : Controller × List Notice :=
  match codecs with
  | [] => (c, [])
  | codec :: rest =>
    if codec.pretty_name = codecName then
      ({ c with
          fEncoderCodecInfo := some codec
          fSettingsOutputCodec := codec.pretty_name },
        [Notice.codecChanged codec.pretty_name])
    else setMediaCodecWalk c rest codecName

/-- Controller::SetMediaCodec(codecName). -/
def Controller.SetMediaCodec (c : Controller) (codecName : String) :
    Controller × List Notice :=
  setMediaCodecWalk c c.fCodecList codecName

/-- Outcomes of the OS calls made by Controller::StartCapture():
allocFail is some status when the FramesList constructor throws a
status_t, spawnResult is the value returned by spawn_thread, and
resumeStatus the value returned by resume_thread. -/
structure StartEnv where
  allocFail : Option Int
  spawnResult : Int
  resumeStatus : Int
deriving DecidableEq

/-- Successful environment for StartCapture: the FramesList constructor
does not throw, spawn_thread returns a non-negative id, and resume_thread
succeeds. -/
def StartEnv.ok (env : StartEnv) : Prop :=
  env.allocFail = none ∧ 0 ≤ env.spawnResult ∧ 0 ≤ env.resumeStatus

instance (env : StartEnv) : Decidable env.ok := by
  unfold StartEnv.ok
  infer_instance

/-- Portion of Controller::StartCapture() after the FramesList exists:
clear the kill and pause flags, spawn the capture thread (bailing out with
kMsgControllerCaptureStopped when spawn_thread or resume_thread fails;
note that on the resume_thread failure path the code kills the thread but
leaves fCaptureThread set), restart the stopwatch, drop any previous stop
runner, and arm a one-shot BMessageRunner when fRequestedRecordTime is
non-zero, consuming fRequestedRecordTime. -/
def startCaptureSpawn (c : Controller) (env : StartEnv) :
    Controller × List Notice :=
  if env.spawnResult < 0 then
    ({ c with
        fKillCaptureThread := false
        fPaused := false
        fCaptureThread := env.spawnResult },
      [Notice.captureStopped (some env.spawnResult)])
  else if env.resumeStatus < B_OK then
    ({ c with
        fKillCaptureThread := false
        fPaused := false
        fCaptureThread := env.spawnResult },
      [Notice.captureStopped (some env.resumeStatus)])
  else if c.fRequestedRecordTime ≠ 0 then
    ({ c with
        fKillCaptureThread := false
        fPaused := false
        fCaptureThread := env.spawnResult
        fRecordWatch := some 0
        fStopRunner := some (c.fRequestedRecordTime, 1)
        fRequestedRecordTime := 0 },
      [Notice.captureStarted])
  else
    ({ c with
        fKillCaptureThread := false
        fPaused := false
        fCaptureThread := env.spawnResult
        fRecordWatch := some 0
        fStopRunner := none },
      [Notice.captureStarted])

/-- Controller::StartCapture(): reset fNumFrames, construct a FramesList
when fFileList is NULL (a constructor throw reports
kMsgControllerCaptureStopped with the thrown status and returns), then
proceed with thread creation. -/
def Controller.StartCapture (c : Controller) (env : StartEnv) :
    Controller × List Notice :=
  if c.fFileList = none then
    match env.allocFail with
    | some e => ({ c with fNumFrames := 0 }, [Notice.captureStopped (some e)])
    | none =>
      startCaptureSpawn { c with fNumFrames := 0, fFileList := some [] } env
  else startCaptureSpawn { c with fNumFrames := 0 } env

/-- Outcome of one iteration of the Controller::CaptureThread() loop body:
the status returned by ReadBitmap, whether FramesList::AddItem succeeded,
and the system_time timestamp of the frame. -/
structure CaptureStep where
  readStatus : Int
  addOk : Bool
  frameTime : Int
deriving DecidableEq

/-- The while loop of Controller::CaptureThread().  The thread-local
variable error starts as B_ERROR and is overwritten by each ReadBitmap
result; the loop exits when fKillCaptureThread is observed, when
ReadBitmap fails, or when AddItem fails (error = B_NO_MEMORY).  The steps
list supplies the outcome of each iteration; its exhaustion models the
moment the controller sets the kill flag, after which the loop exits at
the next check.  Returns the controller together with the thread-local
error value at loop exit. -/
def captureLoop (c : Controller) (steps : List CaptureStep) (error : Int) :
    Controller × Int :=
  match steps with
  | [] => (c, error)
  | s :: rest =>
    if c.fKillCaptureThread then (c, error)
    else if c.fPaused then captureLoop c rest error
    else if s.readStatus ≠ B_OK then (c, s.readStatus)
    else if ¬ s.addOk then (c, B_NO_MEMORY)
    else
      captureLoop
        { c with
            fFileList := c.fFileList.map (fun l => l ++ [⟨s.frameTime⟩])
            fNumFrames := c.fNumFrames + 1 }
        rest B_OK

/-- Exit code of Controller::CaptureThread() after the loop: clear
fCaptureThread, set fKillCaptureThread, and when the thread-local error is
not B_OK send kMsgControllerCaptureStopped with the error and delete
fFileList (setting it NULL). -/
def captureThreadFinish (c : Controller) (error : Int) :
    Controller × List Notice :=
  let c1 : Controller := { c with fCaptureThread := -1, fKillCaptureThread := true }
  if error ≠ B_OK then
    ({ c1 with fFileList := none }, [Notice.captureStopped (some error)])
  else (c1, [])

/-- Controller::CaptureThread() as a whole: run the loop (thread-local
error initialised to B_ERROR) for the given iteration outcomes, then run
the exit code. -/
def Controller.CaptureThread (c : Controller) (steps : List CaptureStep) :
    Controller × List Notice :=
  let r := captureLoop c steps B_ERROR
  captureThreadFinish r.1 r.2

/-- Controller::Cancel().  In STATE_RECORDING it sets fKillCaptureThread,
joins the capture thread with wait_for_thread (the thread, parked at the
top of its loop with thread-local error value threadError, observes the
flag and runs its exit code), then assigns fCaptureThread = -1.  In
STATE_ENCODING it asks the encoder to cancel and clears fEncoderThread.
In STATE_IDLE it does nothing. -/
def Controller.Cancel (c : Controller) (threadError : Int) :
    Controller × List Notice :=
  match c.State with
  | SessionState.recording =>
    let r := captureThreadFinish { c with fKillCaptureThread := true } threadError
    ({ r.1 with fCaptureThread := -1 }, r.2)
  | SessionState.encoding => ({ c with fEncoderThread := -1 }, [])
  | SessionState.idle => (c, [])

/-- Scenario used to examine cancellation: StartCapture, then the capture
thread performs the given iterations, then Cancel arrives while the thread
waits at the top of its loop. -/
def recordThenCancel (c : Controller) (env : StartEnv)
    (steps : List CaptureStep) : Controller × List Notice :=
  let s := c.StartCapture env
  let r := captureLoop s.1 steps B_ERROR
  let f := r.1.Cancel r.2
  (f.1, s.2 ++ f.2)

/-- Ways the controller code can leave the modelled semantics: a null
pointer dereference, or an uncaught C++ throw of a status code. -/
inductive Crash where
  | nullDeref
  | thrown (code : Int)
deriving DecidableEq

/-- Outcomes of the OS calls made by Controller::EncodeMovie():
find_directory status, the fd returned by mkstemp, the unique temp file
name it produced, and the thread id returned by
MovieEncoder::EncodeThreaded. -/
structure EncodeEnv where
  findDirStatus : Int
  mkstempResult : Int
  tempName : String
  encodeTid : Int
deriving DecidableEq

/-- Controller::_EncodingFinished(status, fileName): clear fEncoderThread,
reset fNumFrames, move the temporary output to its destination (an
external filesystem effect, carrying no controller state), then send
kMsgControllerEncodeFinished with the status and, when fileName was not
NULL, the destination path. -/
def Controller.EncodingFinished (c : Controller) (status : Int)
    (fileName : Option String) : Controller × List Notice :=
  ({ c with fEncoderThread := -1, fNumFrames := 0 },
    [Notice.encodeFinished status fileName])

/-- Controller::EncodeMovie().  Reads fFileList->CountItems() — a null
pointer dereference when fFileList is NULL.  With zero frames it runs
_EncodingFinished(B_ERROR, NULL) and deletes fFileList.  Otherwise it
creates a unique temp output name (find_directory or mkstemp failure is
thrown), points the encoder at it, sends kMsgControllerEncodeStarted with
the frame total, hands fFileList to the encoder (nulling fFileList), and
spawns the encoder thread.  Errors carry the notices already sent. -/
def Controller.EncodeMovie (c : Controller) (env : EncodeEnv) :
    Except (Crash × List Notice) (Controller × List Notice) :=
  match c.fFileList with
  | none => Except.error (Crash.nullDeref, [])
  | some frames =>
    if (frames.length : Int) ≤ 0 then
      let r := Controller.EncodingFinished c B_ERROR none
      Except.ok ({ r.1 with fFileList := none }, r.2)
    else if env.findDirStatus ≠ B_OK then
      Except.error (Crash.thrown env.findDirStatus, [])
    else if env.mkstempResult < 0 then
      Except.error (Crash.thrown env.mkstempResult, [])
    else
      Except.ok
        ({ c with
            fEncoderOutputFile := env.tempName
            fEncoderSource := some frames
            fFileList := none
            fEncoderThread := env.encodeTid },
          [Notice.encodeStarted (frames.length : Int)])

/-- Controller::EndCapture(): when the capture thread is live, clear
fPaused, set fKillCaptureThread and join the thread (which runs its exit
code with its thread-local error value threadError); then
fRecordWatch->Suspend() — a null dereference when no stopwatch exists —
then send kMsgControllerCaptureStopped (no payload) and call
EncodeMovie(). -/
def Controller.EndCapture (c : Controller) (threadError : Int)
    (env : EncodeEnv) :
    Except (Crash × List Notice) (Controller × List Notice) :=
  let j :=
    if 0 < c.fCaptureThread then
      captureThreadFinish
        { c with fPaused := false, fKillCaptureThread := true } threadError
    else (c, [])
  match j.1.fRecordWatch with
  | none => Except.error (Crash.nullDeref, j.2)
  | some _ =>
    let ns := j.2 ++ [Notice.captureStopped none]
    match j.1.EncodeMovie env with
    | Except.error e => Except.error (e.1, ns ++ e.2)
    | Except.ok r => Except.ok (r.1, ns ++ r.2)

/-- Controller::ToggleCapture(): StartCapture from STATE_IDLE, EndCapture
from STATE_RECORDING, and nothing at all from STATE_ENCODING. -/
def Controller.ToggleCapture (c : Controller) (threadError : Int)
    (senv : StartEnv) (eenv : EncodeEnv) :
    Except (Crash × List Notice) (Controller × List Notice) :=
  match c.State with
  | SessionState.idle => Except.ok (c.StartCapture senv)
  | SessionState.recording => c.EndCapture threadError eenv
  | SessionState.encoding => Except.ok (c, [])

/-! Helper lemmas about the state query and the capture worker. -/

theorem State_eq_recording_iff (c : Controller) :
    c.State = SessionState.recording ↔ 0 < c.fCaptureThread := by
  unfold Controller.State
  split
  next h1 => simp [h1]
  next h1 =>
    split
    next h2 => simp [h1]
    next h2 => simp [h1]

theorem State_eq_encoding_iff (c : Controller) :
    c.State = SessionState.encoding ↔
      c.fCaptureThread ≤ 0 ∧ (0 < c.fEncoderThread ∨ c.fFileList ≠ none) := by
  unfold Controller.State
  split
  next h1 => simp [not_le.mpr h1]
  next h1 =>
    split
    next h2 => simp [not_lt.mp h1, h2]
    next h2 => simp [h2]

theorem State_eq_idle_iff (c : Controller) :
    c.State = SessionState.idle ↔
      c.fCaptureThread ≤ 0 ∧ c.fEncoderThread ≤ 0 ∧ c.fFileList = none := by
  unfold Controller.State
  split
  next h1 => simp [not_le.mpr h1]
  next h1 =>
    split
    next h2 =>
      rcases h2 with h2 | h2
      · simp [not_le.mpr h2]
      · simp [h2]
    next h2 =>
      push_neg at h2
      simp [not_lt.mp h1, h2.1, h2.2]

theorem captureThreadFinish_fCaptureThread (c : Controller) (error : Int) :
    (captureThreadFinish c error).1.fCaptureThread = -1 := by
  unfold captureThreadFinish
  split <;> rfl

theorem startCaptureSpawn_fFileList (c : Controller) (env : StartEnv) :
    (startCaptureSpawn c env).1.fFileList = c.fFileList := by
  unfold startCaptureSpawn
  split
  · rfl
  · split
    · rfl
    · split <;> rfl

theorem startCaptureSpawn_fNumFrames (c : Controller) (env : StartEnv) :
    (startCaptureSpawn c env).1.fNumFrames = c.fNumFrames := by
  unfold startCaptureSpawn
  split
  · rfl
  · split
    · rfl
    · split <;> rfl

theorem startCaptureSpawn_success (c : Controller) (env : StartEnv)
    (hspawn : 0 ≤ env.spawnResult) (hresume : 0 ≤ env.resumeStatus)
    (hreq : c.fRequestedRecordTime ≠ 0) :
    (startCaptureSpawn c env).1.fStopRunner = some (c.fRequestedRecordTime, 1) ∧
    (startCaptureSpawn c env).1.fRequestedRecordTime = 0 := by
  unfold startCaptureSpawn
  rw [if_neg (by omega), if_neg (by simp only [B_OK]; omega), if_pos hreq]
  exact ⟨rfl, rfl⟩

theorem startCapture_fNumFrames (c : Controller) (env : StartEnv) :
    (c.StartCapture env).1.fNumFrames = 0 := by
  unfold Controller.StartCapture
  by_cases h : c.fFileList = none
  · rw [if_pos h]
    cases henv : env.allocFail with
    | none => rw [startCaptureSpawn_fNumFrames]
    | some e => rfl
  · rw [if_neg h, startCaptureSpawn_fNumFrames]

/-! Claim theorems. -/

/-- Claim C2: the session state is derived, not stored.  State() returns
Recording exactly when the capture-thread handle is positive, otherwise
Encoding exactly when the encoder-thread handle is positive or the
frame-store handle is non-null, and Idle otherwise. -/
theorem claim_C2_state_derived (c : Controller) :
    (c.State = SessionState.recording ↔ 0 < c.fCaptureThread) ∧
    (c.State = SessionState.encoding ↔
      c.fCaptureThread ≤ 0 ∧ (0 < c.fEncoderThread ∨ c.fFileList ≠ none)) ∧
    (c.State = SessionState.idle ↔
      c.fCaptureThread ≤ 0 ∧ c.fEncoderThread ≤ 0 ∧ c.fFileList = none) :=
  ⟨State_eq_recording_iff c, State_eq_encoding_iff c, State_eq_idle_iff c⟩

/-- Claim C6: on every exit path of the capture worker loop, the
controller fCaptureThread field is cleared before the worker terminates,
so a State() query never reports a stale Recording state. -/
theorem claim_C6_capture_thread_clears_handle (c : Controller)
    (steps : List CaptureStep) :
    (c.CaptureThread steps).1.fCaptureThread = -1 ∧
    (c.CaptureThread steps).1.State ≠ SessionState.recording := by
  have h : (c.CaptureThread steps).1.fCaptureThread = -1 := by
    unfold Controller.CaptureThread
    exact captureThreadFinish_fCaptureThread _ _
  refine ⟨h, fun hs => ?_⟩
  have := (State_eq_recording_iff _).mp hs
  omega

/-- Claim C8: ToggleCapture() invoked while the session state is Encoding
changes nothing: same controller state, no notification, no crash. -/
theorem claim_C8_toggle_noop_while_encoding (c : Controller)
    (threadError : Int) (senv : StartEnv) (eenv : EncodeEnv)
    (h : c.State = SessionState.encoding) :
    c.ToggleCapture threadError senv eenv = Except.ok (c, []) := by
  unfold Controller.ToggleCapture
  rw [h]

/-- Witness for claim C8 at a concrete Encoding configuration. -/
theorem claim_C8_witness :
    ({ initController with fEncoderThread := 5 } : Controller).ToggleCapture
        0 ⟨none, 7, 0⟩ ⟨0, 3, "t", 9⟩ =
      Except.ok ({ initController with fEncoderThread := 5 }, []) :=
  claim_C8_toggle_noop_while_encoding _ 0 ⟨none, 7, 0⟩ ⟨0, 3, "t", 9⟩ (by decide)

theorem toInt32_eq_self {x : Int} (h1 : -2147483648 ≤ x)
    (h2 : x < 2147483648) : toInt32 x = x := by
  unfold toInt32
  rw [Int.emod_eq_of_lt (by omega) (by omega)]
  omega

/-- Claim C9 (amended): AverageFPS() never divides by zero.  When the
elapsed record time is zero — including before any recording has started,
when the stopwatch does not exist and RecordTime() returns 0 — it returns
0; otherwise it returns the product recordedFrames * 1000000, computed in
32-bit int arithmetic as in the source, divided (truncating) by the
elapsed time, which agrees with the mathematical product whenever that
product fits in an int32. -/
theorem claim_C9_averageFPS_no_div_by_zero (c : Controller) :
    (c.RecordTime = 0 → c.AverageFPS = 0) ∧
    (c.fRecordWatch = none → c.AverageFPS = 0) ∧
    (c.RecordTime ≠ 0 →
      c.AverageFPS =
        Int.tdiv (toInt32 (c.RecordedFrames * 1000000)) c.RecordTime) ∧
    (c.RecordTime ≠ 0 → 0 ≤ c.RecordedFrames →
      c.RecordedFrames * 1000000 < 2147483648 →
      c.AverageFPS = Int.tdiv (c.RecordedFrames * 1000000) c.RecordTime) := by
  refine ⟨?_, ?_, ?_, ?_⟩
  · intro h
    simp [Controller.AverageFPS, h]
  · intro h
    have h0 : c.RecordTime = 0 := by simp [Controller.RecordTime, h]
    simp [Controller.AverageFPS, h0]
  · intro h
    simp [Controller.AverageFPS, h]
  · intro h h0 hlt
    have hge : -2147483648 ≤ c.RecordedFrames * 1000000 := by omega
    have heq : toInt32 (c.RecordedFrames * 1000000) =
        c.RecordedFrames * 1000000 := toInt32_eq_self hge hlt
    simp [Controller.AverageFPS, h, heq]

/-- Witness for claim C9 at a configuration with 30 frames over one
second. -/
theorem claim_C9_witness :
    ({ initController with fNumFrames := 30, fRecordWatch := some 1000000 }
        : Controller).AverageFPS = 30 := by
  have h := (claim_C9_averageFPS_no_div_by_zero
    { initController with fNumFrames := 30, fRecordWatch := some 1000000 }).2.2.2
    (by decide) (by decide) (by decide)
  rw [h]
  decide

/-- Counterexample to claim C9 as stated: with 2148 recorded frames and a
1-microsecond elapsed time, the int32 product recordedFrames * 1000000
overflows, so AverageFPS() does not return
recordedFrames * 1000000 / elapsed (which would be 2148000000, a value an
int32 cannot even hold). -/
theorem claim_C9_counterexample :
    ({ initController with fNumFrames := 2148, fRecordWatch := some 1 }
        : Controller).AverageFPS = -2146967296 ∧
    ({ initController with fNumFrames := 2148, fRecordWatch := some 1 }
        : Controller).AverageFPS ≠ 2148 * 1000000 / 1 := by
  refine ⟨by decide, by decide⟩

theorem setMediaCodecWalk_no_match (c : Controller)
    (codecs : List MediaCodecInfo) (codecName : String)
    (h : ∀ codec, codec ∈ codecs → codec.pretty_name ≠ codecName) :
    setMediaCodecWalk c codecs codecName = (c, []) := by
  induction codecs with
  | nil => rfl
  | cons codec rest ih =>
    unfold setMediaCodecWalk
    rw [if_neg (h codec (List.mem_cons_self codec rest))]
    exact ih (fun d hd => h d (List.mem_cons_of_mem codec hd))

theorem setMediaCodecWalk_cases (c : Controller)
    (codecs : List MediaCodecInfo) (codecName : String) :
    setMediaCodecWalk c codecs codecName = (c, []) ∨
      ∃ codec, codec ∈ codecs ∧ codec.pretty_name = codecName ∧
        setMediaCodecWalk c codecs codecName =
          ({ c with
              fEncoderCodecInfo := some codec
              fSettingsOutputCodec := codec.pretty_name },
            [Notice.codecChanged codec.pretty_name]) := by
  induction codecs with
  | nil => exact Or.inl rfl
  | cons codec rest ih =>
    by_cases h : codec.pretty_name = codecName
    · refine Or.inr ⟨codec, List.mem_cons_self codec rest, h, ?_⟩
      unfold setMediaCodecWalk
      rw [if_pos h]
    · unfold setMediaCodecWalk
      rw [if_neg h]
      rcases ih with h1 | ⟨d, hd, hn, he⟩
      · exact Or.inl h1
      · exact Or.inr ⟨d, List.mem_cons_of_mem codec hd, hn, he⟩

/-- Claim C10: SetMediaCodec(name) with a name matching no entry of the
codec list is a no-op (encoder codec, persisted setting and notification
channel untouched); in general either nothing happens, or exactly one
list entry whose pretty name equals the argument is applied, with a
single CodecChanged notification. -/
theorem claim_C10_setMediaCodec (c : Controller) (codecName : String) :
    ((∀ codec, codec ∈ c.fCodecList → codec.pretty_name ≠ codecName) →
      c.SetMediaCodec codecName = (c, [])) ∧
    (c.SetMediaCodec codecName = (c, []) ∨
      ∃ codec, codec ∈ c.fCodecList ∧ codec.pretty_name = codecName ∧
        c.SetMediaCodec codecName =
          ({ c with
              fEncoderCodecInfo := some codec
              fSettingsOutputCodec := codec.pretty_name },
            [Notice.codecChanged codec.pretty_name])) :=
  ⟨fun h => setMediaCodecWalk_no_match c c.fCodecList codecName h,
   setMediaCodecWalk_cases c c.fCodecList codecName⟩

/-- Witness for claim C10: a codec list without the requested name leaves
the controller untouched and sends nothing. -/
theorem claim_C10_witness :
    ({ initController with fCodecList := [⟨"MPEG-4 video"⟩] }
        : Controller).SetMediaCodec "H.264" =
      ({ initController with fCodecList := [⟨"MPEG-4 video"⟩] }, []) :=
  (claim_C10_setMediaCodec
    { initController with fCodecList := [⟨"MPEG-4 video"⟩] } "H.264").1
    (by decide)

theorem startCapture_armed (c : Controller) (env : StartEnv)
    (hok : env.ok) (hreq : c.fRequestedRecordTime ≠ 0) :
    (c.StartCapture env).1.fStopRunner = some (c.fRequestedRecordTime, 1) ∧
    (c.StartCapture env).1.fRequestedRecordTime = 0 := by
  obtain ⟨ha, hs, hr⟩ := hok
  unfold Controller.StartCapture
  by_cases h : c.fFileList = none
  · rw [if_pos h, ha]
    exact startCaptureSpawn_success _ env hs hr hreq
  · rw [if_neg h]
    exact startCaptureSpawn_success _ env hs hr hreq

/-- Claim C4: SetRecordingTime(ms) is a no-op once Recording has begun
(fCaptureThread positive); otherwise it stores the duration; and a
successful StartCapture with a non-zero stored duration arms the one-shot
stop runner with that duration and resets the stored duration to zero. -/
theorem claim_C4_setRecordingTime (c : Controller) (msecs : Int)
    (env : StartEnv) :
    (0 < c.fCaptureThread → c.SetRecordingTime msecs = c) ∧
    (c.fCaptureThread ≤ 0 →
      c.SetRecordingTime msecs = { c with fRequestedRecordTime := msecs }) ∧
    (env.ok → c.fRequestedRecordTime ≠ 0 →
      (c.StartCapture env).1.fStopRunner =
        some (c.fRequestedRecordTime, 1) ∧
      (c.StartCapture env).1.fRequestedRecordTime = 0) := by
  refine ⟨?_, ?_, fun hok hreq => startCapture_armed c env hok hreq⟩
  · intro h
    unfold Controller.SetRecordingTime
    rw [if_pos h]
  · intro h
    unfold Controller.SetRecordingTime
    rw [if_neg (by omega)]

/-- Witness for claim C4: while recording the setter changes nothing, and
a requested duration of 2000 arms the one-shot runner at the next start. -/
theorem claim_C4_witness :
    ({ initController with fCaptureThread := 3 } : Controller).SetRecordingTime
        5 = { initController with fCaptureThread := 3 } ∧
    (({ initController with fRequestedRecordTime := 2000 }
        : Controller).StartCapture ⟨none, 7, 0⟩).1.fStopRunner =
      some (2000, 1) :=
  ⟨(claim_C4_setRecordingTime { initController with fCaptureThread := 3 } 5
      ⟨none, 7, 0⟩).1 (by decide),
   ((claim_C4_setRecordingTime
      { initController with fRequestedRecordTime := 2000 } 5
      ⟨none, 7, 0⟩).2.2 (by decide) (by decide)).1⟩

/-- Claim C5 (amended): StartCapture() invoked from Idle constructs a
fresh empty FrameStore; when allocating it fails, it emits a single
CaptureStopped error notification and returns with the state still Idle,
no capture thread spawned, and no session field changed except
fNumFrames, which the code resets to zero before attempting the
allocation. -/
theorem claim_C5_startCapture_allocFail (c : Controller) (env : StartEnv)
    (e : Int) (hidle : c.State = SessionState.idle) :
    (env.allocFail = none → (c.StartCapture env).1.fFileList = some []) ∧
    (env.allocFail = some e →
      c.StartCapture env =
        ({ c with fNumFrames := 0 }, [Notice.captureStopped (some e)]) ∧
      (c.StartCapture env).1.State = SessionState.idle) := by
  obtain ⟨hcap, henc, hfl⟩ := (State_eq_idle_iff c).mp hidle
  constructor
  · intro ha
    unfold Controller.StartCapture
    rw [if_pos hfl, ha, startCaptureSpawn_fFileList]
  · intro ha
    have heq : c.StartCapture env =
        ({ c with fNumFrames := 0 }, [Notice.captureStopped (some e)]) := by
      unfold Controller.StartCapture
      rw [if_pos hfl, ha]
    refine ⟨heq, ?_⟩
    rw [heq]
    exact (State_eq_idle_iff _).mpr ⟨hcap, henc, hfl⟩

/-- Witness for claim C5: from the pristine Idle controller, a successful
allocation yields the fresh empty store, and a failed allocation yields
exactly the CaptureStopped error notification with the state Idle. -/
theorem claim_C5_witness :
    (initController.StartCapture ⟨none, 7, 0⟩).1.fFileList = some [] ∧
    initController.StartCapture ⟨some (-1), 7, 0⟩ =
      ({ initController with fNumFrames := 0 },
        [Notice.captureStopped (some (-1))]) :=
  ⟨(claim_C5_startCapture_allocFail initController ⟨none, 7, 0⟩ (-1)
      (by decide)).1 rfl,
   ((claim_C5_startCapture_allocFail initController ⟨some (-1), 7, 0⟩ (-1)
      (by decide)).2 rfl).1⟩

/-- Counterexample to claim C5 as stated: in a reachable Idle
configuration with fNumFrames = 5 (left behind by a recording that ended
in a capture error), a StartCapture whose FramesList allocation fails
does change a session field: fNumFrames becomes 0.  So the failure path
is not free of session-field changes. -/
theorem claim_C5_counterexample :
    ({ initController with fNumFrames := 5 } : Controller).State =
      SessionState.idle ∧
    (({ initController with fNumFrames := 5 }
        : Controller).StartCapture ⟨some (-1), 7, 0⟩).2 =
      [Notice.captureStopped (some (-1))] ∧
    (({ initController with fNumFrames := 5 }
        : Controller).StartCapture ⟨some (-1), 7, 0⟩).1.fNumFrames = 0 ∧
    (({ initController with fNumFrames := 5 }
        : Controller).StartCapture ⟨some (-1), 7, 0⟩).1 ≠
      { initController with fNumFrames := 5 } := by
  refine ⟨by decide, by decide, by decide, by decide⟩

theorem captureLoop_preserves_count (steps : List CaptureStep) :
    ∀ (c : Controller) (error : Int) (l : List BitmapEntry),
      c.fFileList = some l → c.fNumFrames = (l.length : Int) →
      ∃ l2, (captureLoop c steps error).1.fFileList = some l2 ∧
        (captureLoop c steps error).1.fNumFrames = (l2.length : Int) := by
  induction steps with
  | nil =>
    intro c error l h1 h2
    exact ⟨l, h1, h2⟩
  | cons s rest ih =>
    intro c error l h1 h2
    unfold captureLoop
    split
    · exact ⟨l, h1, h2⟩
    · split
      · exact ih c error l h1 h2
      · split
        · exact ⟨l, h1, h2⟩
        · split
          · exact ⟨l, h1, h2⟩
          · refine ih _ B_OK (l ++ [⟨s.frameTime⟩]) ?_ ?_
            · simp [h1]
            · simp [h2]

/-- Claim C7: the frame counter tracks the FrameStore size while
Recording.  StartCapture resets fNumFrames to zero on every path and,
from Idle with a successful environment, installs a fresh empty store (so
the invariant holds at recording start); and any run of the capture loop
preserves the equality fNumFrames = FrameStore size, each successful
append incrementing both by one. -/
theorem claim_C7_frameCount_matches_store (c : Controller) (env : StartEnv)
    (steps : List CaptureStep) (error : Int) (l : List BitmapEntry) :
    ((c.StartCapture env).1.fNumFrames = 0) ∧
    (c.State = SessionState.idle → env.allocFail = none →
      (c.StartCapture env).1.fFileList = some [] ∧
      (c.StartCapture env).1.fNumFrames = 0) ∧
    (c.fFileList = some l → c.fNumFrames = (l.length : Int) →
      ∃ l2, (captureLoop c steps error).1.fFileList = some l2 ∧
        (captureLoop c steps error).1.fNumFrames = (l2.length : Int)) := by
  refine ⟨startCapture_fNumFrames c env, ?_, ?_⟩
  · intro hidle ha
    obtain ⟨hcap, henc, hfl⟩ := (State_eq_idle_iff c).mp hidle
    constructor
    · unfold Controller.StartCapture
      rw [if_pos hfl, ha, startCaptureSpawn_fFileList]
    · exact startCapture_fNumFrames c env
  · exact captureLoop_preserves_count steps c error l

/-- Witness for claim C7: a fresh recording appending one frame keeps the
counter equal to the store size. -/
theorem claim_C7_witness :
    ∃ l2,
      (captureLoop
          { initController with
              fCaptureThread := 7
              fKillCaptureThread := false
              fRecordWatch := some 0
              fFileList := some [] }
          [⟨0, true, 42⟩] B_ERROR).1.fFileList = some l2 ∧
      (captureLoop
          { initController with
              fCaptureThread := 7
              fKillCaptureThread := false
              fRecordWatch := some 0
              fFileList := some [] }
          [⟨0, true, 42⟩] B_ERROR).1.fNumFrames = (l2.length : Int) :=
  (claim_C7_frameCount_matches_store
    { initController with
        fCaptureThread := 7
        fKillCaptureThread := false
        fRecordWatch := some 0
        fFileList := some [] }
    ⟨none, 7, 0⟩ [⟨0, true, 42⟩] B_ERROR []).2.2 rfl (by decide)

/-- Claim C1, evaluated at the failing input: starting a recording from
the pristine controller, capturing one frame successfully, and then
calling Cancel() leaves the FrameStore non-empty (the captured frame is
retained, not discarded) and leaves State() reporting Encoding, not Idle,
because the capture thread exit path only deletes fFileList when its
thread-local error is not B_OK.  No frames reach an encoder on this path
(fEncoderThread stays -1, and the only notification is CaptureStarted),
but the store/Idle part of the claim is violated by the code. -/
theorem claim_C1_cancel_retains_frames :
    (recordThenCancel initController ⟨none, 7, 0⟩ [⟨0, true, 1000⟩]).1.fFileList =
      some [⟨1000⟩] ∧
    (recordThenCancel initController ⟨none, 7, 0⟩ [⟨0, true, 1000⟩]).1.State =
      SessionState.encoding ∧
    (recordThenCancel initController ⟨none, 7, 0⟩
        [⟨0, true, 1000⟩]).1.fEncoderThread = -1 ∧
    (recordThenCancel initController ⟨none, 7, 0⟩ [⟨0, true, 1000⟩]).2 =
      [Notice.captureStarted] := by
  refine ⟨by decide, by decide, by decide, by decide⟩

/-- Claim C3, evaluated at the failing input: when ToggleCapture() ends a
recording whose store holds zero frames, the joined capture thread (whose
thread-local error is still B_ERROR, since no iteration completed) has
already deleted fFileList and sent CaptureStopped with the error, so
EncodeMovie() dereferences the NULL fFileList instead of emitting the
EncodeFinished error notification the claim promises: no EncodeFinished
notification appears, and no encode worker is spawned because the call
crashes first. -/
theorem claim_C3_empty_recording_crashes :
    ({ initController with
        fCaptureThread := 7
        fKillCaptureThread := false
        fRecordWatch := some 2000
        fFileList := some [] } : Controller).State =
      SessionState.recording ∧
    ({ initController with
        fCaptureThread := 7
        fKillCaptureThread := false
        fRecordWatch := some 2000
        fFileList := some [] } : Controller).ToggleCapture B_ERROR
        ⟨none, 7, 0⟩ ⟨0, 3, "/boot/system/cache/tmp/BSC_clip_a", 9⟩ =
      Except.error (Crash.nullDeref,
        [Notice.captureStopped (some B_ERROR),
          Notice.captureStopped none]) := by
  refine ⟨by decide, ?_⟩
  rfl

end BSC
